import Mathlib

/-!
Shallow embedding of `src/app.py` (IGCSE Science Quiz Generator, a single-file
Streamlit app) and proofs about it.

Modelling conventions:
* Python strings are `List Char`; `str.strip()` is `pyStrip` (the ASCII
  whitespace subset suffices for every string manipulated here).
* JSON values are the inductive `Json`; the library call `json.loads` is kept
  abstract (`loads : List Char → Option Json`) in the general theorems, and is
  instantiated with the executable model `jsonLoadsModel` (a recursive-descent
  parser for the JSON fragment exercised by the app: null, booleans, integers,
  strings with simple escapes, arrays, objects) at concrete inputs.
* Python exceptions are the inductive `PyExc`; the `try/except` of
  `generate_questions` catches exactly `RequestException`, `JSONDecodeError`
  and `KeyError`, every other exception escapes as `Except.error`.
* Streamlit effects are modelled by data: `st.error` calls become `ErrMsg`
  values collected in a list, `st.session_state["question_sets"]` is a
  `List QuestionSet`, `st.stop()` is the `halted` outcome of `scriptRun`.
* The `st.cache_data` decorator is not modelled: the button handler calls
  `generate_questions.clear()` immediately before the single call it makes,
  so every modelled call is a fresh one.
-/

namespace App

/-- Characters stripped by Python `str.strip()` (the ASCII whitespace range;
the app never manipulates non-ASCII whitespace). -/
def isPySpace (c : Char) : Bool :=
  c = ' ' || c = '\t' || c = '\n' || c = '\r' || c = Char.ofNat 11 || c = Char.ofNat 12

/-- Left part of Python `str.strip()`. -/
def pyStripLeft (l : List Char) : List Char := l.dropWhile isPySpace

/-- Right part of Python `str.strip()`. -/
def pyStripRight (l : List Char) : List Char := (l.reverse.dropWhile isPySpace).reverse

/-- Model of Python `str.strip()`. -/
def pyStrip (l : List Char) : List Char := pyStripRight (pyStripLeft l)

/-- Model of Python `s.startswith(p)` on character lists. -/
def pyStartsWith : List Char → List Char → Bool
  | _, [] => true
  | [], _ :: _ => false
  | c :: cs, p :: ps => c = p && pyStartsWith cs ps

/-- Model of Python `s.endswith(p)` on character lists. -/
def pyEndsWith (s p : List Char) : Bool := pyStartsWith s.reverse p.reverse

/-- Backtick character (0x60). -/
def btick : Char := Char.ofNat 96

/-- The three-backtick fence marker ("```"). -/
def fence : List Char := [btick, btick, btick]

/-- The fenced-JSON opening marker ("```json") stripped at `src/app.py:92-93`. -/
def fenceJson : List Char := [btick, btick, btick, 'j', 's', 'o', 'n']

/-- The markdown-fence cleanup of `generate_questions` (`src/app.py:91-95`):

    if response_content.strip().startswith("```json"):
        response_content = response_content.strip()[len("```json"):].strip()
    if response_content.strip().endswith("```"):
        response_content = response_content.strip()[:-len("```")].strip()
-/
def sanitize (x : List Char) : List Char :=
  let s1 := if pyStartsWith (pyStrip x) fenceJson
            then pyStrip ((pyStrip x).drop fenceJson.length)
            else x
  if pyEndsWith (pyStrip s1) fence
  then pyStrip ((pyStrip s1).take ((pyStrip s1).length - fence.length))
  else s1

/-- JSON values, as produced by Python `json.loads` (numbers restricted to
integers: the app's payloads never require floats, and `jsonLoadsModel`
rejects rather than misparses a fractional literal). -/
inductive Json where
  | null
  | bool (b : Bool)
  | num (n : Int)
  | str (s : List Char)
  | arr (elems : List Json)
  | obj (fields : List (List Char × Json))

/-- Whitespace skipped between JSON tokens. -/
def isJsonWs (c : Char) : Bool := c = ' ' || c = '\t' || c = '\n' || c = '\r'

/-- Skip inter-token whitespace. -/
def skipWs (l : List Char) : List Char := l.dropWhile isJsonWs

/-- Left brace character (0x7b). -/
def lbrace : Char := Char.ofNat 123

/-- Right brace character (0x7d). -/
def rbrace : Char := Char.ofNat 125

/-- Simple JSON string escapes (no \u, which the app's data never contains). -/
def escChar (c : Char) : Option Char :=
  if c = '"' then some '"'
  else if c = '\\' then some '\\'
  else if c = '/' then some '/'
  else if c = 'n' then some '\n'
  else if c = 't' then some '\t'
  else if c = 'r' then some '\r'
  else if c = 'b' then some (Char.ofNat 8)
  else if c = 'f' then some (Char.ofNat 12)
  else none

/-- Body of a JSON string after the opening quote; returns content and rest. -/
def parseStringBody : List Char → Option (List Char × List Char)
  | [] => none
  | c :: rest =>
    if c = '"' then some ([], rest)
    else if c = '\\' then
      match rest with
      | [] => none
      | e :: rest2 =>
        match escChar e, parseStringBody rest2 with
        | some ec, some (s, r) => some (ec :: s, r)
        | _, _ => none
    else
      match parseStringBody rest with
      | some (s, r) => some (c :: s, r)
      | none => none

/-- Decimal digit test. -/
def isDigitCh (c : Char) : Bool := '0' ≤ c && c ≤ '9'

/-- Numeric value of a digit string. -/
def natOfDigits (ds : List Char) : Nat :=
  ds.foldl (fun a c => a * 10 + (c.toNat - 48)) 0

/-- Unsigned integer literal; rejects a following '.', 'e' or 'E' so that a
float is reported as unparsable rather than silently truncated. -/
def parseNat (l : List Char) : Option (Nat × List Char) :=
  let ds := l.takeWhile isDigitCh
  let rest := l.dropWhile isDigitCh
  if ds.isEmpty then none
  else
    match rest with
    | c :: _ => if c = '.' || c = 'e' || c = 'E' then none else some (natOfDigits ds, rest)
    | [] => some (natOfDigits ds, rest)

mutual

/-- One JSON value (fuel-indexed recursive descent). -/
def parseValue : Nat → List Char → Option (Json × List Char)
  | 0, _ => none
  | fuel + 1, l =>
    match l with
    | [] => none
    | c :: rest =>
      if c = lbrace then
        match skipWs rest with
        | [] => none
        | c2 :: r3 =>
          if c2 = rbrace then some (.obj [], r3)
          else
            match parseFields fuel (c2 :: r3) [] with
            | some (fs, r) => some (.obj fs, r)
            | none => none
      else if c = '[' then
        match skipWs rest with
        | [] => none
        | c2 :: r3 =>
          if c2 = ']' then some (.arr [], r3)
          else
            match parseElems fuel (c2 :: r3) [] with
            | some (es, r) => some (.arr es, r)
            | none => none
      else if c = '"' then
        match parseStringBody rest with
        | some (s, r) => some (.str s, r)
        | none => none
      else if c = '-' then
        match parseNat rest with
        | some (n, r) => some (.num (-(n : Int)), r)
        | none => none
      else if isDigitCh c then
        match parseNat (c :: rest) with
        | some (n, r) => some (.num (n : Int), r)
        | none => none
      else if pyStartsWith l "true".toList then some (.bool true, l.drop 4)
      else if pyStartsWith l "false".toList then some (.bool false, l.drop 5)
      else if pyStartsWith l "null".toList then some (.null, l.drop 4)
      else none

/-- Comma-separated array elements up to the closing bracket. -/
def parseElems : Nat → List Char → List Json → Option (List Json × List Char)
  | 0, _, _ => none
  | fuel + 1, l, acc =>
    match parseValue fuel (skipWs l) with
    | none => none
    | some (v, r) =>
      match skipWs r with
      | [] => none
      | c :: r2 =>
        if c = ',' then parseElems fuel r2 (v :: acc)
        else if c = ']' then some ((v :: acc).reverse, r2)
        else none

/-- Comma-separated object fields up to the closing brace. -/
def parseFields : Nat → List Char → List (List Char × Json) →
    Option (List (List Char × Json) × List Char)
  | 0, _, _ => none
  | fuel + 1, l, acc =>
    match skipWs l with
    | [] => none
    | c :: r =>
      if c = '"' then
        match parseStringBody r with
        | none => none
        | some (k, r2) =>
          match skipWs r2 with
          | [] => none
          | c2 :: r3 =>
            if c2 = ':' then
              match parseValue fuel (skipWs r3) with
              | none => none
              | some (v, r4) =>
                match skipWs r4 with
                | [] => none
                | c3 :: r5 =>
                  if c3 = ',' then parseFields fuel r5 ((k, v) :: acc)
                  else if c3 = rbrace then some (((k, v) :: acc).reverse, r5)
                  else none
            else none
      else none

end

/-- Model of the library call `json.loads` on the fragment this app exchanges
(`src/app.py:97`): the whole input must be a single JSON value surrounded by
optional whitespace. The general theorems below stay parametric in the parse
function; this executable model instantiates them at concrete inputs. -/
def jsonLoadsModel (l : List Char) : Option Json :=
  match parseValue (l.length + 1) (skipWs l) with
  | some (v, r) => if (skipWs r).isEmpty then some v else none
  | none => none

/-- Python exception kinds that the body of `generate_questions` can raise.
`requestException` covers `requests.exceptions.RequestException` (raised by
`requests.post` and `raise_for_status`, and by `response.json()` on an
unparsable body, since requests' JSONDecodeError subclasses it). -/
inductive PyExc where
  | requestException
  | jsonDecodeError
  | keyError
  | indexError
  | typeError
  | attributeError
deriving DecidableEq

/-- User-visible `st.error` messages, one constructor per call site. -/
inductive ErrMsg where
  | httpError      -- src/app.py:105
  | parseError     -- src/app.py:109
  | noContent      -- src/app.py:100
  | apiKeyMissing  -- src/app.py:21
deriving DecidableEq

/-- Python subscription `j[k]` with a string key: objects look the key up and
raise KeyError when absent; lists and strings raise TypeError on a string
index; other values are not subscriptable. -/
def pyGetStr (j : Json) (k : List Char) : Except PyExc Json :=
  match j with
  | .obj fields =>
    match fields.lookup k with
    | some v => .ok v
    | none => .error .keyError
  | .arr _ => .error .typeError
  | .str _ => .error .typeError
  | _ => .error .typeError

/-- Python subscription `j[i]` with a non-negative integer index: lists raise
IndexError past the end, dicts raise KeyError on an absent (integer) key,
strings yield a one-character string, the rest raise TypeError. -/
def pyGetIdx (j : Json) (i : Nat) : Except PyExc Json :=
  match j with
  | .arr xs =>
    match xs.get? i with
    | some v => .ok v
    | none => .error .indexError
  | .obj _ => .error .keyError
  | .str s =>
    match s.get? i with
    | some c => .ok (.str [c])
    | none => .error .indexError
  | _ => .error .typeError

/-- Python `==` between a JSON value and a string (only strings compare equal). -/
def isStrEq (j : Json) (s : List Char) : Bool :=
  match j with
  | .str t => t = s
  | _ => false

/-- Python `k in j` for a string `k`: key test on dicts, element test on
lists, substring test on strings, TypeError otherwise. -/
def pyContains (j : Json) (k : List Char) : Except PyExc Bool :=
  match j with
  | .obj fields => .ok (fields.any (fun f => f.1 = k))
  | .arr xs => .ok (xs.any (fun x => isStrEq x k))
  | .str s => .ok (decide (k <:+: s))
  | _ => .error .typeError

/-- Python `len(j)`: defined on dicts, lists and strings, TypeError otherwise. -/
def pyLen (j : Json) : Except PyExc Nat :=
  match j with
  | .obj fields => .ok fields.length
  | .arr xs => .ok xs.length
  | .str s => .ok s.length
  | _ => .error .typeError

/-- Python attribute access `.strip()` needs a string receiver; any other
value raises AttributeError. -/
def pyAsStr (j : Json) : Except PyExc (List Char) :=
  match j with
  | .str s => .ok s
  | _ => .error .attributeError

/-- Truthiness of a Python value, as tested by `if questions:`
(`src/app.py:145`). -/
def pyTruthy (j : Json) : Bool :=
  match j with
  | .null => false
  | .bool b => b
  | .num n => n ≠ 0
  | .str s => !s.isEmpty
  | .arr xs => !xs.isEmpty
  | .obj fields => !fields.isEmpty

/-- Outcome of the network interaction in `generate_questions`
(`src/app.py:80-85`): the POST or `raise_for_status` raised a
RequestException, or a 2xx response carried the given JSON body
(`bodyNotJson` marks a 2xx body `response.json()` cannot parse). -/
inductive NetOutcome where
  | requestFailure
  | bodyNotJson
  | ok (responseData : Json)

/-- Body of the `try:` block from the point where `response_data` is in hand
(`src/app.py:88-102`), parametric in the library JSON parser. Returns the
value `generate_questions` would return together with the `st.error`
messages emitted, or the exception the body raises. -/
def extractAndParse (loads : List Char → Option Json) (rd : Json) :
    Except PyExc (Option Json × List ErrMsg) := do
  let c ← pyContains rd "candidates".toList
  if c then
    let cand ← pyGetStr rd "candidates".toList
    let n ← pyLen cand
    if 0 < n then
      let c0 ← pyGetIdx cand 0
      let content ← pyGetStr c0 "content".toList
      let parts ← pyGetStr content "parts".toList
      let p0 ← pyGetIdx parts 0
      let t ← pyGetStr p0 "text".toList
      let s ← pyAsStr t
      match loads (sanitize s) with
      | some v => pure (some v, [])
      | none => throw .jsonDecodeError
    else
      pure (none, [ErrMsg.noContent])
  else
    pure (none, [ErrMsg.noContent])

/-- The two `except` clauses of `generate_questions` (`src/app.py:104-111`):
RequestException, JSONDecodeError and KeyError are caught and turned into an
`st.error` plus `return None`; every other exception escapes. -/
def pyExceptHandler (r : Except PyExc (Option Json × List ErrMsg)) :
    Except PyExc (Option Json × List ErrMsg) :=
  match r with
  | .ok v => .ok v
  | .error .requestException => .ok (none, [ErrMsg.httpError])
  | .error .jsonDecodeError => .ok (none, [ErrMsg.parseError])
  | .error .keyError => .ok (none, [ErrMsg.parseError])
  | .error e => .error e

/-- Model of `generate_questions` (`src/app.py:27-111`): the returned value
(`none` models Python `None`), the emitted error messages, or an escaping
exception. -/
def generate_questions (loads : List Char → Option Json) (net : NetOutcome) :
    Except PyExc (Option Json × List ErrMsg) :=
  match net with
  | .requestFailure => .ok (none, [ErrMsg.httpError])
  | .bodyNotJson => .ok (none, [ErrMsg.httpError])
  | .ok rd => pyExceptHandler (extractAndParse loads rd)

/-- One entry of `st.session_state["question_sets"]` (`src/app.py:147-152`). -/
structure QuestionSet where
  subject : List Char
  topic : List Char
  qtype : List Char
  questions : Json

/-- Model of the Generate Questions button handler (`src/app.py:139-152`):
runs `generate_questions` and, when the result is truthy, inserts the new
set at the head of the history. Returns the new history and the messages
emitted, or the exception that crashes the script run. -/
def buttonHandler (loads : List Char → Option Json) (net : NetOutcome)
    (subject topic qtype : List Char) (history : List QuestionSet) :
    Except PyExc (List QuestionSet × List ErrMsg) :=
  match generate_questions loads net with
  | .error e => .error e
  | .ok (v, msgs) =>
    match v with
    | some q =>
      if pyTruthy q then
        .ok ({ subject := subject, topic := topic, qtype := qtype,
               questions := q } :: history, msgs)
      else .ok (history, msgs)
    | none => .ok (history, msgs)

/-- Outcome of one Streamlit script run. -/
inductive ScriptResult where
  | halted (msgs : List ErrMsg) (netCalls : Nat)
  | ran (history : List QuestionSet) (msgs : List ErrMsg) (netCalls : Nat)
  | crashed (e : PyExc)

/-- Model of one top-level script run (`src/app.py:17-152`): the API-key
check runs first (`src/app.py:18-23`) and `st.stop()` halts the run before
any widget or handler executes; otherwise, a press of the button runs the
handler, which makes exactly one network attempt. -/
def scriptRun (secrets : List (List Char × List Char))
    (loads : List Char → Option Json) (buttonPressed : Bool) (net : NetOutcome)
    (subject topic qtype : List Char) (history : List QuestionSet) : ScriptResult :=
  match secrets.lookup "GEMINI_API_KEY".toList with
  | none => .halted [ErrMsg.apiKeyMissing] 0
  | some _ =>
    if buttonPressed then
      match buttonHandler loads net subject topic qtype history with
      | .error e => .crashed e
      | .ok (h, msgs) => .ran h msgs 1
    else .ran history [] 0

/-- The well-formed response envelope carrying a completion text, as returned
by the Gemini endpoint on success: candidates[0].content.parts[0].text. -/
def wrapText (raw : List Char) : Json :=
  .obj [("candidates".toList,
    .arr [.obj [("content".toList,
      .obj [("parts".toList,
        .arr [.obj [("text".toList, .str raw)]])])]])]

/-- Question texts delivered to the history, in order: for each stored set,
the "question" field of each element of its questions array. -/
def allQuestionTexts (history : List QuestionSet) : List (List Char) :=
  history.flatMap (fun qs =>
    match qs.questions with
    | .arr es => es.filterMap (fun e =>
        match e with
        | .obj fields =>
          match fields.lookup "question".toList with
          | some (.str s) => some (pyStrip s)
          | _ => none
        | _ => none)
    | _ => [])

/-! ### Helper lemmas about the string primitives -/

lemma isPySpace_btick : isPySpace btick = false := by decide

lemma pyStartsWith_append (p t : List Char) : pyStartsWith (p ++ t) p = true := by
  induction p with
  | nil => cases t <;> rfl
  | cons c ps ih => simp [pyStartsWith, ih]

lemma pyStartsWith_iff (s p : List Char) :
    pyStartsWith s p = true ↔ ∃ t, s = p ++ t := by
  induction p generalizing s with
  | nil =>
    simp only [List.nil_append]
    constructor
    · intro _; exact ⟨s, rfl⟩
    · intro _; cases s <;> rfl
  | cons c ps ih =>
    cases s with
    | nil =>
      simp [pyStartsWith]
    | cons a as =>
      simp only [pyStartsWith, Bool.and_eq_true, decide_eq_true_eq, ih,
        List.cons_append, List.cons.injEq]
      constructor
      · rintro ⟨rfl, t, rfl⟩; exact ⟨t, rfl, rfl⟩
      · rintro ⟨t, rfl, rfl⟩; exact ⟨rfl, t, rfl⟩

lemma pyEndsWith_append (t p : List Char) : pyEndsWith (t ++ p) p = true := by
  unfold pyEndsWith
  rw [List.reverse_append]
  exact pyStartsWith_append _ _

lemma pyEndsWith_iff (s p : List Char) :
    pyEndsWith s p = true ↔ ∃ t, s = t ++ p := by
  unfold pyEndsWith
  rw [pyStartsWith_iff]
  constructor
  · rintro ⟨t, h⟩
    refine ⟨t.reverse, ?_⟩
    have := congrArg List.reverse h
    simpa using this
  · rintro ⟨t, rfl⟩
    exact ⟨t.reverse, by simp⟩

lemma pyStripLeft_cons_of (c : Char) (l : List Char) (h : isPySpace c = false) :
    pyStripLeft (c :: l) = c :: l := by
  simp [pyStripLeft, List.dropWhile_cons, h]

lemma pyStripRight_append_of (l : List Char) (c : Char) (h : isPySpace c = false) :
    pyStripRight (l ++ [c]) = l ++ [c] := by
  simp [pyStripRight, List.dropWhile_cons, h]

lemma pyStripLeft_head_not (l : List Char) :
    ∀ c t, pyStripLeft l = c :: t → isPySpace c = false := by
  induction l with
  | nil => intro c t h; simp [pyStripLeft] at h
  | cons a as ih =>
    intro c t h
    rw [pyStripLeft, List.dropWhile_cons] at h
    by_cases ha : isPySpace a = true
    · rw [if_pos ha] at h
      exact ih c t h
    · rw [if_neg ha] at h
      cases h
      simpa using ha

lemma pyStripLeft_idem (l : List Char) :
    pyStripLeft (pyStripLeft l) = pyStripLeft l := by
  cases h : pyStripLeft l with
  | nil => rfl
  | cons c t => exact pyStripLeft_cons_of c t (pyStripLeft_head_not l c t h)

lemma pyStrip_pyStripLeft (l : List Char) : pyStrip (pyStripLeft l) = pyStrip l := by
  unfold pyStrip
  rw [pyStripLeft_idem]

lemma pyStrip_cons_append (c : Char) (l : List Char) (d : Char)
    (hc : isPySpace c = false) (hd : isPySpace d = false) :
    pyStrip (c :: (l ++ [d])) = c :: (l ++ [d]) := by
  unfold pyStrip
  rw [pyStripLeft_cons_of _ _ hc]
  rw [show c :: (l ++ [d]) = (c :: l) ++ [d] from rfl]
  exact pyStripRight_append_of _ _ hd

lemma pyStrip_wrapped (inner : List Char) :
    pyStrip (fenceJson ++ inner ++ fence) = fenceJson ++ inner ++ fence := by
  have h : fenceJson ++ inner ++ fence
      = btick :: (([btick, btick, 'j', 's', 'o', 'n'] ++ inner ++ [btick, btick]) ++ [btick]) := by
    simp [fenceJson, fence]
  rw [h, pyStrip_cons_append _ _ _ isPySpace_btick isPySpace_btick]

lemma exists_pyStrip_fence_append (u : List Char) :
    ∃ v, pyStrip (fence ++ u) = fence ++ v := by
  have h : fence ++ u = btick :: ([btick, btick] ++ u) := by simp [fence]
  unfold pyStrip
  rw [h, pyStripLeft_cons_of _ _ isPySpace_btick]
  unfold pyStripRight
  rw [show btick :: ([btick, btick] ++ u) = (fence ++ u : List Char) from h.symm]
  rw [show (fence ++ u).reverse = u.reverse ++ fence.reverse by simp]
  rw [List.dropWhile_append]
  by_cases he : (u.reverse.dropWhile isPySpace).isEmpty
  · rw [if_pos he]
    exact ⟨[], by simp [fence]; decide⟩
  · rw [if_neg he]
    exact ⟨(u.reverse.dropWhile isPySpace).reverse, by simp [fence]⟩

lemma exists_pyStripRight_cons (c : Char) (t : List Char) (hc : isPySpace c = false) :
    ∃ t2, pyStripRight (c :: t) = c :: t2 := by
  unfold pyStripRight
  rw [List.reverse_cons, List.dropWhile_append]
  by_cases he : (t.reverse.dropWhile isPySpace).isEmpty
  · rw [if_pos he]
    exact ⟨[], by simp [List.dropWhile_cons, hc]⟩
  · rw [if_neg he]
    exact ⟨(t.reverse.dropWhile isPySpace).reverse, by simp⟩

lemma pyStripRight_idem (l : List Char) :
    pyStripRight (pyStripRight l) = pyStripRight l := by
  unfold pyStripRight
  rw [List.reverse_reverse]
  have h := pyStripLeft_idem l.reverse
  unfold pyStripLeft at h
  rw [h]

lemma pyStrip_idem (l : List Char) : pyStrip (pyStrip l) = pyStrip l := by
  unfold pyStrip
  cases h : pyStripLeft l with
  | nil => rfl
  | cons c t =>
    have hc := pyStripLeft_head_not l c t h
    obtain ⟨t2, h2⟩ := exists_pyStripRight_cons c t hc
    rw [h2, pyStripLeft_cons_of _ _ hc, ← h2, pyStripRight_idem]

lemma pyStrip_append_fence (inner : List Char) :
    pyStrip (inner ++ fence) = pyStripLeft inner ++ fence := by
  unfold pyStrip
  have hL : pyStripLeft (inner ++ fence) = pyStripLeft inner ++ fence := by
    unfold pyStripLeft
    rw [List.dropWhile_append]
    by_cases he : (inner.dropWhile isPySpace).isEmpty
    · rw [if_pos he]
      have hnil : inner.dropWhile isPySpace = [] := by
        simpa [List.isEmpty_iff] using he
      rw [hnil, List.nil_append]
      decide
    · rw [if_neg he]
  rw [hL]
  rw [show pyStripLeft inner ++ fence = (pyStripLeft inner ++ [btick, btick]) ++ [btick] by
    simp [fence]]
  rw [pyStripRight_append_of _ _ isPySpace_btick]

lemma sanitize_wrapped (inner : List Char) :
    sanitize (fenceJson ++ inner ++ fence) = pyStrip inner := by
  have h1 : pyStartsWith (pyStrip (fenceJson ++ inner ++ fence)) fenceJson = true := by
    rw [pyStrip_wrapped, List.append_assoc]
    exact pyStartsWith_append _ _
  have hdrop : (pyStrip (fenceJson ++ inner ++ fence)).drop fenceJson.length
      = inner ++ fence := by
    rw [pyStrip_wrapped, List.append_assoc]
    exact List.drop_left _ _
  have hs1 : pyStrip ((pyStrip (fenceJson ++ inner ++ fence)).drop fenceJson.length)
      = pyStripLeft inner ++ fence := by
    rw [hdrop, pyStrip_append_fence]
  have hps1 : pyStrip (pyStripLeft inner ++ fence) = pyStripLeft inner ++ fence := by
    have h := pyStrip_append_fence (pyStripLeft inner)
    rwa [pyStripLeft_idem] at h
  have hlen : (pyStripLeft inner ++ fence).length - fence.length
      = (pyStripLeft inner).length := by
    simp
  simp only [sanitize, h1, hs1, hps1, pyEndsWith_append, hlen, List.take_left,
    pyStrip_pyStripLeft, eq_self_iff_true, if_true]

/-- C7: sanitization of a completion that starts with the "```json" opening
marker and ends with the closing "```" marker removes both markers and
returns the inner content with only its surrounding whitespace trimmed; in
particular the input consisting of "```json", a newline, "[1,2]", a newline
and "```" sanitizes to "[1,2]". -/
theorem sanitize_strips_fenced_json_pair :
    (∀ inner : List Char, sanitize (fenceJson ++ inner ++ fence) = pyStrip inner)
    ∧ sanitize (fenceJson ++ "\n[1,2]\n".toList ++ fence) = "[1,2]".toList := by
  refine ⟨sanitize_wrapped, ?_⟩
  decide

/-- C2 counterexample: on the input "```json```json" one application of the
sanitizer yields "```json" and a second application yields the empty string,
so sanitize (sanitize x) differs from sanitize x. -/
theorem sanitize_not_idempotent_cex :
    sanitize (fenceJson ++ fenceJson) = fenceJson
    ∧ sanitize (sanitize (fenceJson ++ fenceJson)) = []
    ∧ sanitize (sanitize (fenceJson ++ fenceJson)) ≠ sanitize (fenceJson ++ fenceJson) := by
  refine ⟨by decide, by decide, by decide⟩

/-- C2 amended: the sanitizer is idempotent on every input whose sanitized
form does not itself begin (after stripping) with the "```json" marker and
does not end (after stripping) with the "```" marker; on the remaining
inputs, such as "```json```json", a second application strips further. -/
theorem sanitize_idempotent_of_no_fences (x : List Char)
    (h1 : pyStartsWith (pyStrip (sanitize x)) fenceJson = false)
    (h2 : pyEndsWith (pyStrip (sanitize x)) fence = false) :
    sanitize (sanitize x) = sanitize x := by
  generalize sanitize x = y at h1 h2 ⊢
  simp [sanitize, h1, h2]

/-- Witness for the amended C2 at the input "[1,2]". -/
theorem sanitize_idempotent_of_no_fences_witness :
    pyStartsWith (pyStrip (sanitize "[1,2]".toList)) fenceJson = false
    ∧ pyEndsWith (pyStrip (sanitize "[1,2]".toList)) fence = false
    ∧ sanitize (sanitize "[1,2]".toList) = sanitize "[1,2]".toList :=
  ⟨by decide, by decide,
    sanitize_idempotent_of_no_fences ("[1,2]".toList) (by decide) (by decide)⟩

/-- C3 counterexample: on the input "```", newline, "[1,2]", newline, "```" —
whose trimmed text begins with a bare "```" fence marker — the sanitizer does
not strip the leading marker: the output still begins with "```" (only the
trailing marker is removed). -/
theorem sanitize_bare_fence_cex :
    sanitize (fence ++ "\n[1,2]\n".toList ++ fence) = fence ++ "\n[1,2]".toList
    ∧ pyStartsWith (sanitize (fence ++ "\n[1,2]\n".toList ++ fence)) fence = true := by
  refine ⟨by decide, by decide⟩

/-- C3 amended: a leading bare "```" marker (one not followed by "json") is
never stripped: whenever the trimmed input begins with "```" but not with
"```json" (and has length at least 6, so the leading marker is not consumed
as a trailing one), the sanitized output still begins with "```". -/
theorem sanitize_keeps_bare_leading_fence (x : List Char)
    (hf : pyStartsWith (pyStrip x) fence = true)
    (hj : pyStartsWith (pyStrip x) fenceJson = false)
    (hlen : 6 ≤ (pyStrip x).length) :
    pyStartsWith (pyStrip (sanitize x)) fence = true := by
  by_cases h2 : pyEndsWith (pyStrip x) fence = true
  · have hsan : sanitize x
        = pyStrip ((pyStrip x).take ((pyStrip x).length - fence.length)) := by
      simp [sanitize, hj, h2]
    obtain ⟨t, ht⟩ := (pyStartsWith_iff _ _).mp hf
    have hlen3 : 3 ≤ t.length := by
      rw [ht] at hlen
      simp only [List.length_append, show fence.length = 3 from rfl] at hlen
      omega
    have htake : (pyStrip x).take ((pyStrip x).length - fence.length)
        = fence ++ t.take (t.length - 3) := by
      rw [ht]
      have hl : (fence ++ t).length - fence.length = t.length := by
        simp only [List.length_append]
        omega
      rw [hl, List.take_append_eq_append_take,
        List.take_of_length_le (by rw [show fence.length = 3 from rfl]; exact hlen3)]
      rw [show fence.length = 3 from rfl]
    rw [hsan, htake, pyStrip_idem]
    obtain ⟨v, hv⟩ := exists_pyStrip_fence_append (t.take (t.length - 3))
    rw [hv]
    exact pyStartsWith_append _ _
  · have h2f : pyEndsWith (pyStrip x) fence = false := by
      simpa using h2
    have hsan : sanitize x = x := by
      simp [sanitize, hj, h2f]
    rw [hsan]
    exact hf

/-- Witness for the amended C3 at the input "``` hello". -/
theorem sanitize_keeps_bare_leading_fence_witness :
    pyStartsWith (pyStrip (fence ++ " hello".toList)) fence = true
    ∧ pyStartsWith (pyStrip (fence ++ " hello".toList)) fenceJson = false
    ∧ 6 ≤ (pyStrip (fence ++ " hello".toList)).length
    ∧ pyStartsWith (pyStrip (sanitize (fence ++ " hello".toList))) fence = true :=
  ⟨by decide, by decide, by decide,
    sanitize_keeps_bare_leading_fence (fence ++ " hello".toList)
      (by decide) (by decide) (by decide)⟩

/-! ### Pipeline theorems -/

/-- Reduction of `generate_questions` on a well-formed response envelope:
everything up to the `json.loads` call computes away. -/
lemma generate_questions_ok_wrap (loads : List Char → Option Json) (raw : List Char) :
    generate_questions loads (.ok (wrapText raw))
      = pyExceptHandler (match loads (sanitize raw) with
          | some w => Except.ok (some w, [])
          | none => Except.error PyExc.jsonDecodeError) := rfl

/-- C1: when the completion text is not valid JSON after sanitizing, the
button handler reports a parse error and leaves the question-set history
exactly as it was — no partial question set is inserted. -/
theorem parse_failure_leaves_history_unchanged
    (loads : List Char → Option Json) (raw : List Char)
    (subject topic qtype : List Char) (history : List QuestionSet)
    (h : loads (sanitize raw) = none) :
    buttonHandler loads (.ok (wrapText raw)) subject topic qtype history
      = .ok (history, [ErrMsg.parseError]) := by
  unfold buttonHandler
  rw [generate_questions_ok_wrap, h]
  rfl

/-- Witness for C1: non-JSON prose with an initially empty history. -/
theorem parse_failure_leaves_history_unchanged_witness :
    jsonLoadsModel (sanitize "hello world".toList) = none
    ∧ buttonHandler jsonLoadsModel (.ok (wrapText "hello world".toList))
        "Biology".toList "Cells".toList "Multiple Choice".toList []
      = .ok ([], [ErrMsg.parseError]) :=
  ⟨rfl, parse_failure_leaves_history_unchanged jsonLoadsModel "hello world".toList
      "Biology".toList "Cells".toList "Multiple Choice".toList [] rfl⟩

/-- C9: whenever the sanitized completion parses as any JSON value at all,
`generate_questions` returns that value unchanged and emits no message: no
validation against a question schema or the declared List[Dict] return type
happens. -/
theorem parsed_value_returned_unvalidated
    (loads : List Char → Option Json) (raw : List Char) (v : Json)
    (h : loads (sanitize raw) = some v) :
    generate_questions loads (.ok (wrapText raw)) = .ok (some v, []) := by
  rw [generate_questions_ok_wrap, h]
  rfl

/-- Witness for C9: the valid JSON string value "hi" — not a list of dicts —
is returned as-is. -/
theorem parsed_value_returned_unvalidated_witness :
    jsonLoadsModel (sanitize "\"hi\"".toList) = some (.str "hi".toList)
    ∧ generate_questions jsonLoadsModel (.ok (wrapText "\"hi\"".toList))
      = .ok (some (.str "hi".toList), []) :=
  ⟨rfl, parsed_value_returned_unvalidated jsonLoadsModel "\"hi\"".toList
      (.str "hi".toList) rfl⟩

/-- Number of options of a parsed element, when it is an object with an
"options" array. -/
def optionsCount (e : Json) : Option Nat :=
  match e with
  | .obj fields =>
    match fields.lookup "options".toList with
    | some (.arr os) => some os.length
    | _ => none
  | _ => none

/-- A MultipleChoice element with only three options. -/
def mcq3 : Json :=
  .obj [("question".toList, .str "Q".toList),
        ("options".toList, .arr [.str "A".toList, .str "B".toList, .str "C".toList]),
        ("answer".toList, .str "A".toList),
        ("explanation".toList, .str "E".toList)]

/-- Raw completion text whose single element has three options. -/
def mcq3Raw : List Char :=
  "[\x7b\"question\": \"Q\", \"options\": [\"A\", \"B\", \"C\"], \"answer\": \"A\", \"explanation\": \"E\"\x7d]".toList

/-- C4 counterexample: a parsed batch whose MultipleChoice element has three
options instead of four is returned by `generate_questions` as-is, with no
error message — no SchemaViolation is reported and the element is not
dropped. -/
theorem mcq_three_options_not_rejected_cex :
    optionsCount mcq3 = some 3
    ∧ jsonLoadsModel (sanitize mcq3Raw) = some (.arr [mcq3])
    ∧ generate_questions jsonLoadsModel (.ok (wrapText mcq3Raw))
      = .ok (some (.arr [mcq3]), []) :=
  ⟨rfl, rfl, rfl⟩

/-- C4 amended: the code performs no schema validation: a parsed batch
containing an element that violates the MultipleChoice schema (here: its
option count is not 4) is delivered in full to the history, the violating
element included, with no error reported. -/
theorem no_schema_validation_on_bad_mcq
    (loads : List Char → Option Json) (raw : List Char) (es : List Json) (e : Json)
    (subject topic qtype : List Char) (history : List QuestionSet)
    (h : loads (sanitize raw) = some (.arr es))
    (he : e ∈ es) (hbad : optionsCount e ≠ some 4) :
    buttonHandler loads (.ok (wrapText raw)) subject topic qtype history
      = .ok ({ subject := subject, topic := topic, qtype := qtype,
               questions := .arr es } :: history, [])
    ∧ e ∈ es := by
  refine ⟨?_, he⟩
  unfold buttonHandler
  rw [generate_questions_ok_wrap, h]
  cases es with
  | nil => cases he
  | cons x xs => rfl

/-- Witness for the amended C4 at the three-option batch. -/
theorem no_schema_validation_on_bad_mcq_witness :
    jsonLoadsModel (sanitize mcq3Raw) = some (.arr [mcq3])
    ∧ mcq3 ∈ [mcq3]
    ∧ optionsCount mcq3 ≠ some 4
    ∧ (buttonHandler jsonLoadsModel (.ok (wrapText mcq3Raw))
          "Biology".toList "Cells".toList "Multiple Choice".toList []
        = .ok ([{ subject := "Biology".toList, topic := "Cells".toList,
                  qtype := "Multiple Choice".toList,
                  questions := .arr [mcq3] }], [])
      ∧ mcq3 ∈ [mcq3]) :=
  ⟨rfl, List.mem_singleton_self mcq3, by decide,
    no_schema_validation_on_bad_mcq jsonLoadsModel mcq3Raw [mcq3] mcq3
      "Biology".toList "Cells".toList "Multiple Choice".toList []
      rfl (List.mem_singleton_self mcq3) (by decide)⟩

/-- Raw completion text with a single question "Q1". -/
def q1Raw : List Char := "[\x7b\"question\": \"Q1\"\x7d]".toList

/-- The question set the handler builds from `q1Raw`. -/
def qset1 : QuestionSet :=
  { subject := "Biology".toList, topic := "Cells".toList,
    qtype := "Multiple Choice".toList,
    questions := .arr [.obj [("question".toList, .str "Q1".toList)]] }

/-- C5 counterexample: two successive generation requests each returning the
question text "Q1" both insert into the history, whose delivered question
texts then contain the same normalized text twice. -/
theorem no_dedup_across_calls_cex :
    buttonHandler jsonLoadsModel (.ok (wrapText q1Raw))
        "Biology".toList "Cells".toList "Multiple Choice".toList []
      = .ok ([qset1], [])
    ∧ buttonHandler jsonLoadsModel (.ok (wrapText q1Raw))
        "Biology".toList "Cells".toList "Multiple Choice".toList [qset1]
      = .ok ([qset1, qset1], [])
    ∧ allQuestionTexts [qset1, qset1] = ["Q1".toList, "Q1".toList]
    ∧ ¬ (allQuestionTexts [qset1, qset1]).Nodup :=
  ⟨rfl, rfl, rfl, by decide⟩

/-- C5 amended: the pipeline performs no deduplication: every truthy result
is inserted verbatim at the head of the history, whatever question texts the
history already holds, so repeated texts across calls are all delivered. -/
theorem handler_inserts_without_dedup
    (loads : List Char → Option Json) (raw : List Char) (v : Json)
    (subject topic qtype : List Char) (history : List QuestionSet)
    (h : loads (sanitize raw) = some v) (htr : pyTruthy v = true) :
    buttonHandler loads (.ok (wrapText raw)) subject topic qtype history
      = .ok ({ subject := subject, topic := topic, qtype := qtype,
               questions := v } :: history, []) := by
  unfold buttonHandler
  rw [generate_questions_ok_wrap, h]
  simp [pyExceptHandler, htr]

/-- Witness for the amended C5: a second insertion on top of a history that
already holds the same question text. -/
theorem handler_inserts_without_dedup_witness :
    jsonLoadsModel (sanitize q1Raw)
      = some (.arr [.obj [("question".toList, .str "Q1".toList)]])
    ∧ pyTruthy (.arr [.obj [("question".toList, .str "Q1".toList)]]) = true
    ∧ buttonHandler jsonLoadsModel (.ok (wrapText q1Raw))
        "Biology".toList "Cells".toList "Multiple Choice".toList [qset1]
      = .ok ([qset1, qset1], []) :=
  ⟨rfl, rfl,
    handler_inserts_without_dedup jsonLoadsModel q1Raw
      (.arr [.obj [("question".toList, .str "Q1".toList)]])
      "Biology".toList "Cells".toList "Multiple Choice".toList [qset1] rfl rfl⟩

/-- A 2xx response whose single candidate has an empty "parts" list. -/
def emptyPartsResponse : Json :=
  .obj [("candidates".toList,
    .arr [.obj [("content".toList, .obj [("parts".toList, .arr [])])]])]

/-- C6 (code bug): on a response whose candidate has an empty "parts" list,
`generate_questions` raises an IndexError that none of its except clauses
catches, and the script run crashes instead of returning None after a typed
failure report. -/
theorem empty_parts_raises_uncaught_indexerror :
    generate_questions jsonLoadsModel (.ok emptyPartsResponse)
      = .error PyExc.indexError
    ∧ scriptRun [("GEMINI_API_KEY".toList, "k".toList)] jsonLoadsModel true
        (.ok emptyPartsResponse)
        "Biology".toList "Cells".toList "Multiple Choice".toList []
      = .crashed PyExc.indexError :=
  ⟨rfl, rfl⟩

/-- C8: when the GEMINI_API_KEY secret is absent, the script run reports the
fatal configuration error and halts before anything else executes: whatever
the button state, the network outcome or the history, the run ends halted
with exactly the api-key message and zero network calls attempted. -/
theorem missing_api_key_halts_before_network
    (secrets : List (List Char × List Char)) (loads : List Char → Option Json)
    (buttonPressed : Bool) (net : NetOutcome)
    (subject topic qtype : List Char) (history : List QuestionSet)
    (h : secrets.lookup "GEMINI_API_KEY".toList = none) :
    scriptRun secrets loads buttonPressed net subject topic qtype history
      = .halted [ErrMsg.apiKeyMissing] 0 := by
  unfold scriptRun
  rw [h]

/-- Witness for C8 with an empty secrets store. -/
theorem missing_api_key_halts_before_network_witness :
    ([] : List (List Char × List Char)).lookup "GEMINI_API_KEY".toList = none
    ∧ scriptRun [] jsonLoadsModel true (.ok (wrapText "[1]".toList))
        "Biology".toList "Cells".toList "Multiple Choice".toList []
      = .halted [ErrMsg.apiKeyMissing] 0 :=
  ⟨rfl, missing_api_key_halts_before_network [] jsonLoadsModel true
      (.ok (wrapText "[1]".toList))
      "Biology".toList "Cells".toList "Multiple Choice".toList [] rfl⟩

/-- C10: when `generate_questions` succeeds but the parsed value is falsy
(for instance the valid JSON array "[]"), the button handler inserts nothing
into the history and emits no user-visible message: the empty success is
silently dropped. -/
theorem falsy_success_silently_dropped
    (loads : List Char → Option Json) (raw : List Char) (v : Json)
    (subject topic qtype : List Char) (history : List QuestionSet)
    (h : loads (sanitize raw) = some v) (hf : pyTruthy v = false) :
    buttonHandler loads (.ok (wrapText raw)) subject topic qtype history
      = .ok (history, []) := by
  unfold buttonHandler
  rw [generate_questions_ok_wrap, h]
  simp [pyExceptHandler, hf]

/-- Witness for C10 at the completion "[]". -/
theorem falsy_success_silently_dropped_witness :
    jsonLoadsModel (sanitize "[]".toList) = some (.arr [])
    ∧ pyTruthy (.arr []) = false
    ∧ buttonHandler jsonLoadsModel (.ok (wrapText "[]".toList))
        "Biology".toList "Cells".toList "Multiple Choice".toList [qset1]
      = .ok ([qset1], []) :=
  ⟨rfl, rfl,
    falsy_success_silently_dropped jsonLoadsModel "[]".toList (.arr [])
      "Biology".toList "Cells".toList "Multiple Choice".toList [qset1] rfl rfl⟩

end App
